import Mathlib

/-
Shallow embedding of src/src/create_experiment_template.py, a CLI utility
that builds an AWS FIS experiment template for Lambda targets, creates it
through the FIS client, and optionally starts an experiment from it.

Python dicts with fixed keys become Lean structures; dicts used as
string-to-string mappings become association lists preserving insertion
order; the network clients become record fields holding the response the
environment would return for this run; prints and network calls are
recorded in an explicit event trace.
-/

namespace AwsFis

/-- Python truthiness of an optional string argument: None and the empty
string are falsy (the source tests the log bucket with a bare if). -/
def truthyStr : Option String → Bool
  | none => false
  | some s => s ≠ ""

/-- Python truthiness of an optional tag dict: None and the empty dict are
falsy (the source applies the or-default idiom to the tags). -/
def truthyTags : Option (List (String × String)) → Bool
  | none => false
  | some t => t ≠ []

/-- One entry of the targets dict (lines 46-52 of the source). -/
structure TargetDef where
  resourceType : String
  resourceArns : List String
  selectionMode : String
deriving DecidableEq, Repr

/-- One entry of the actions dict (lines 55-66 of the source). -/
structure ActionDef where
  actionId : String
  parameters : List (String × String)
  targets : List (String × String)
deriving DecidableEq, Repr

/-- One stop condition (lines 69-73 of the source). -/
structure StopCondition where
  source : String
deriving DecidableEq, Repr

/-- The cloudWatchLogsConfiguration sub-dict (lines 91-93). -/
structure CloudWatchLogsConfiguration where
  logGroupArn : String
deriving DecidableEq, Repr

/-- The s3Configuration sub-dict (lines 94-97); the field pfx embeds the
source key named p-r-e-f-i-x. -/
structure S3Configuration where
  bucketName : String
  pfx : String
deriving DecidableEq, Repr

/-- The logConfiguration dict (lines 90-99). -/
structure LogConfiguration where
  cloudWatchLogsConfiguration : CloudWatchLogsConfiguration
  s3Configuration : S3Configuration
  logSchemaVersion : Nat
deriving DecidableEq, Repr

/-- The template_params dict passed to the create call (lines 76-99). -/
structure TemplateParams where
  description : String
  targets : List (String × TargetDef)
  actions : List (String × ActionDef)
  stopConditions : List StopCondition
  roleArn : String
  tags : List (String × String)
  logConfiguration : Option LogConfiguration
deriving DecidableEq, Repr

/-- The slice of the create-call response the code reads: the template and
its id field. -/
structure CreatedTemplate where
  id : String
deriving DecidableEq, Repr

/-- The slice of the start and get responses the code reads: experiment id
and state.status. -/
structure ExperimentInfo where
  id : String
  stateStatus : String
deriving DecidableEq, Repr

/-- The params dict sent by start_experiment (lines 124-127). -/
structure StartParams where
  experimentTemplateId : String
  tags : List (String × String)
deriving DecidableEq, Repr

/-- The boto3 FIS client, modelled by its region and by the responses the
external service returns to this run (ok carries the read fields, error
carries the ClientError text). -/
structure FISClient where
  regionName : String
  createResult : Except String CreatedTemplate
  startResult : Except String ExperimentInfo
  getResult : Except String ExperimentInfo

/-- Observable steps of a run: the STS get_caller_identity network call,
the two FIS mutation calls with the exact request parameters sent, and the
lines written to stdout and stderr. -/
inductive Event where
  | stsCall : Event
  | createCall : TemplateParams → Event
  | startCall : StartParams → Event
  | stdout : String → Event
  | stderr : String → Event
deriving DecidableEq, Repr

/-- Number of STS identity calls recorded in a trace. -/
def stsCallCount : List Event → Nat
  | [] => 0
  | Event.stsCall :: evs => stsCallCount evs + 1
  | _ :: evs => stsCallCount evs

/-- Number of start_experiment service calls recorded in a trace. -/
def starterCalls : List Event → Nat
  | [] => 0
  | Event.startCall _ :: evs => starterCalls evs + 1
  | _ :: evs => starterCalls evs

/-- The start-call count distributes over trace concatenation. -/
theorem starterCalls_append (xs ys : List Event) :
    starterCalls (xs ++ ys) = starterCalls xs + starterCalls ys := by
  induction xs with
  | nil => simp [starterCalls]
  | cons x xs ih => cases x <;> simp [starterCalls, ih] <;> omega

/-- The STS-call count distributes over trace concatenation. -/
theorem stsCallCount_append (xs ys : List Event) :
    stsCallCount (xs ++ ys) = stsCallCount xs + stsCallCount ys := by
  induction xs with
  | nil => simp [stsCallCount]
  | cons x xs ih => cases x <;> simp [stsCallCount, ih] <;> omega

/-- Lines 44-99 of create_experiment_template: the pure assembly of the
template_params dict. stsAccount is the account string the STS call would
return; it is only embedded when the log bucket is truthy, exactly as in
the source. Source defaults (not re-encoded as Lean default arguments):
action_id is the Lambda invocation-error action, duration PT2M,
percentage 100, log_bucket None, log prefix value fis-logs. -/
def build_template_params (regionName stsAccount : String)
    (description : String) (role_arn : String)
    (target_lambda_arns : List String) (action_id : String) (duration : String)
    (percentage : Int) (log_bucket : Option String) (log_pfx : String) :
    TemplateParams :=
  ⟨description,
   [("lambda-functions", ⟨"aws:lambda:function", target_lambda_arns, "ALL"⟩)],
   [("inject-fault",
     ⟨action_id,
      [("duration", duration), ("percentage", toString percentage)],
      [("Lambdas", "lambda-functions")]⟩)],
   [⟨"none"⟩],
   role_arn,
   [("Environment", "test"), ("ManagedBy", "fis-automation")],
   if truthyStr log_bucket then
     some ⟨⟨"arn:aws:logs:" ++ regionName ++ ":" ++ stsAccount
            ++ ":log-group:/aws/fis/*"⟩,
           ⟨log_bucket.getD "", log_pfx⟩, 1⟩
   else none⟩

/-- Lines 16-108: create_experiment_template. Returns the Python return
value (the created template, or the re-raised ClientError) together with
the event trace: the conditional STS call, the create call with the
assembled params, and the success or failure prints. -/
def create_experiment_template (client : FISClient) (stsAccount : String)
    (description : String) (role_arn : String) (target_lambda_arns : List String)
    (action_id : String) (duration : String) (percentage : Int)
    (log_bucket : Option String) (log_pfx : String) :
    Except String CreatedTemplate × List Event :=
  let params := build_template_params client.regionName stsAccount description
      role_arn target_lambda_arns action_id duration percentage log_bucket log_pfx
  let stsEvents := if truthyStr log_bucket then [Event.stsCall] else []
  match client.createResult with
  | Except.ok tpl =>
      (Except.ok tpl,
       stsEvents ++
        [Event.createCall params,
         Event.stdout "✓ 実験テンプレート作成成功",
         Event.stdout ("  Template ID: " ++ tpl.id)])
  | Except.error e =>
      (Except.error e,
       stsEvents ++
        [Event.createCall params,
         Event.stderr ("✗ テンプレート作成失敗: " ++ e)])

/-- Lines 124-127 of start_experiment: the params dict, with the Python
or-default on the tags. -/
def start_experiment_params (template_id : String)
    (tags : Option (List (String × String))) : StartParams :=
  ⟨template_id,
   if truthyTags tags then tags.getD [] else [("StartedBy", "automation-script")]⟩

/-- Lines 111-137: start_experiment. Returns the started experiment or the
re-raised ClientError, with the trace of the start call and its prints. -/
def start_experiment (client : FISClient) (template_id : String)
    (tags : Option (List (String × String))) :
    Except String ExperimentInfo × List Event :=
  let params := start_experiment_params template_id tags
  match client.startResult with
  | Except.ok ex =>
      (Except.ok ex,
       [Event.startCall params,
        Event.stdout "✓ 実験起動成功",
        Event.stdout ("  Experiment ID: " ++ ex.id),
        Event.stdout ("  State: " ++ ex.stateStatus)])
  | Except.error e =>
      (Except.error e,
       [Event.startCall params,
        Event.stderr ("✗ 実験起動失敗: " ++ e)])

/-- Lines 140-156: get_experiment_status. -/
def get_experiment_status (client : FISClient) (experiment_id : String) :
    Except String ExperimentInfo × List Event :=
  match client.getResult with
  | Except.ok ex => (Except.ok ex, [])
  | Except.error e =>
      (Except.error e,
       [Event.stderr ("✗ ステータス取得失敗: " ++ e)])

/-- The parsed CLI arguments (lines 163-210); argparse defaults are the
values main would receive when a flag is omitted. -/
structure Args where
  role_arn : String
  lambda_arns : List String
  description : String
  action_id : String
  duration : String
  percentage : Int
  log_bucket : Option String
  region : String
  no_start : Bool
deriving Repr

/-- The value of the Python dunder file variable: the script path, modelled
by its file name. -/
def scriptFile : String := "create_experiment_template.py"

/-- Rendering of json.dumps of the opaque template response; only the id is
tracked in the model. -/
def jsonDumpsTemplate (t : CreatedTemplate) : String :=
  "json(template " ++ t.id ++ ")"

/-- Rendering of json.dumps of the opaque experiment response. -/
def jsonDumpsExperiment (ex : ExperimentInfo) : String :=
  "json(experiment " ++ ex.id ++ ")"

/-- Lines 159-255: main. A raised ClientError propagates out of main (the
error branch); otherwise main returns 0. The trace collects every print and
service call in program order. -/
def main (args : Args) (client : FISClient) (stsAccount : String) :
    Except String Nat × List Event :=
  let header :=
    [Event.stdout "=== AWS FIS 実験テンプレート作成 ===",
     Event.stdout ("ターゲット Lambda ARNs: " ++ toString args.lambda_arns),
     Event.stdout ("アクション: " ++ args.action_id),
     Event.stdout ("継続時間: " ++ args.duration),
     Event.stdout ("影響率: " ++ toString args.percentage ++ "%"),
     Event.stdout ""]
  let created := create_experiment_template client stsAccount args.description
      args.role_arn args.lambda_arns args.action_id args.duration
      args.percentage args.log_bucket "fis-logs"
  match created.1 with
  | Except.error e => (Except.error e, header ++ created.2)
  | Except.ok tpl =>
    let afterCreate := header ++ created.2 ++
      [Event.stdout "\nテンプレート詳細:",
       Event.stdout (jsonDumpsTemplate tpl)]
    if args.no_start then
      (Except.ok 0,
       afterCreate ++
        [Event.stdout "\n実験を起動するには:",
         Event.stdout ("  python " ++ scriptFile ++ " start --template-id " ++ tpl.id)])
    else
      let started := start_experiment client tpl.id (some [("CreatedBy", "fis-script")])
      match started.1 with
      | Except.error e =>
          (Except.error e,
           afterCreate ++ [Event.stdout "\n=== 実験起動 ==="] ++ started.2)
      | Except.ok ex =>
          (Except.ok 0,
           afterCreate ++ [Event.stdout "\n=== 実験起動 ==="] ++ started.2 ++
            [Event.stdout "\n実験詳細:",
             Event.stdout (jsonDumpsExperiment ex),
             Event.stdout "\n実験を監視するには:",
             Event.stdout ("  aws fis get-experiment --id " ++ ex.id)])

/-- Line 259: sys.exit(main()). An exception that escapes main makes the
Python interpreter exit with status 1. -/
def processExit (r : Except String Nat × List Event) : Nat :=
  match r.1 with
  | Except.ok n => n
  | Except.error _ => 1

/-- Claim C1, counterexample: at a concrete valid input the targets mapping
is exactly the single lambda-functions entry with the input ARNs, but its
selectionMode is the string ALL, not the claimed lowercase all. -/
theorem c1_counterexample :
    (build_template_params "us-east-1" "123456789012" "demo" "role-arn"
        ["arn:aws:lambda:us-east-1:123:function:f1"]
        "aws:fis:inject-api-unavailable-error" "PT2M" 100 none "fis-logs").targets
      = [("lambda-functions",
          ⟨"aws:lambda:function", ["arn:aws:lambda:us-east-1:123:function:f1"], "ALL"⟩)]
    ∧ "ALL" ≠ "all" := by
  exact ⟨rfl, by decide⟩

/-- Claim C1 (amended): for every input, the targets mapping of the built
template contains exactly the key lambda-functions, whose resourceArns is
the input ARN list unchanged (same elements, same order) and whose
selectionMode is ALL. -/
theorem c1_targets (regionName stsAccount description role_arn : String)
    (target_lambda_arns : List String) (action_id duration : String)
    (percentage : Int) (log_bucket : Option String) (log_pfx : String) :
    (build_template_params regionName stsAccount description role_arn
        target_lambda_arns action_id duration percentage log_bucket log_pfx).targets
      = [("lambda-functions",
          ⟨"aws:lambda:function", target_lambda_arns, "ALL"⟩)] := rfl

/-- Claim C2, counterexample: the empty string is a supplied log bucket,
yet the built template has no log configuration, refuting the claimed
if-and-only-if for supplied buckets. -/
theorem c2_counterexample :
    (some "" : Option String).isSome = true
    ∧ (build_template_params "us-east-1" "210987654321" "demo2" "role2"
        ["arnB"] "act" "PT1M" 50 (some "") "fis-logs").logConfiguration = none := by
  refine ⟨rfl, ?_⟩
  simp [build_template_params, truthyStr]

/-- Claim C2 (amended): the output includes a log configuration iff a
non-empty log bucket was supplied; when included it carries the supplied
bucket name and the given prefix value (default fis-logs). -/
theorem c2_logConfiguration (regionName stsAccount description role_arn : String)
    (target_lambda_arns : List String) (action_id duration : String)
    (percentage : Int) (log_bucket : Option String) (log_pfx : String) :
    ((build_template_params regionName stsAccount description role_arn
        target_lambda_arns action_id duration percentage log_bucket log_pfx).logConfiguration.isSome
      = truthyStr log_bucket)
    ∧ (∀ b, log_bucket = some b → b ≠ "" →
        ∃ lc, (build_template_params regionName stsAccount description role_arn
            target_lambda_arns action_id duration percentage log_bucket log_pfx).logConfiguration
            = some lc
          ∧ lc.s3Configuration.bucketName = b ∧ lc.s3Configuration.pfx = log_pfx) := by
  constructor
  · cases h : truthyStr log_bucket <;> simp [build_template_params, h]
  · intro b hb hne
    subst hb
    have ht : truthyStr (some b) = true := by simp [truthyStr, hne]
    exact ⟨⟨⟨"arn:aws:logs:" ++ regionName ++ ":" ++ stsAccount
              ++ ":log-group:/aws/fis/*"⟩, ⟨b, log_pfx⟩, 1⟩,
           by simp [build_template_params, ht], rfl, rfl⟩

/-- Claim C2 witness: at bucket my-bucket with the default prefix value the
log configuration is present and carries both. -/
theorem c2_witness :
    ∃ lc, (build_template_params "us-east-1" "123456789012" "demo" "role"
        ["arnA"] "act" "PT2M" 100 (some "my-bucket") "fis-logs").logConfiguration
        = some lc
      ∧ lc.s3Configuration.bucketName = "my-bucket"
      ∧ lc.s3Configuration.pfx = "fis-logs" :=
  (c2_logConfiguration "us-east-1" "123456789012" "demo" "role" ["arnA"] "act"
      "PT2M" 100 (some "my-bucket") "fis-logs").2 "my-bucket" rfl (by decide)

/-- Claim C3: for every integer percentage the built actions mapping is the
single inject-fault entry whose percentage parameter is the decimal string
form of that integer, with no clamping and no local rejection of values
outside 0-100. -/
theorem c3_percentage (regionName stsAccount description role_arn : String)
    (target_lambda_arns : List String) (action_id duration : String)
    (percentage : Int) (log_bucket : Option String) (log_pfx : String) :
    (build_template_params regionName stsAccount description role_arn
        target_lambda_arns action_id duration percentage log_bucket log_pfx).actions
      = [("inject-fault",
          ⟨action_id,
           [("duration", duration), ("percentage", toString percentage)],
           [("Lambdas", "lambda-functions")]⟩)] := rfl

/-- Claim C4, counterexample: the caller supplies the empty tag mapping,
yet the params sent carry the default StartedBy tag instead of the
caller-supplied mapping, refuting the claimed if-and-only-if. -/
theorem c4_counterexample :
    (start_experiment_params "tpl-123" (some [])).tags
      = [("StartedBy", "automation-script")]
    ∧ ([] : List (String × String)) ≠ [("StartedBy", "automation-script")] := by
  exact ⟨rfl, by decide⟩

/-- Claim C4 (amended): the default StartedBy tag mapping is used iff the
caller supplies no tags or an empty tag mapping; a non-empty caller
mapping is sent unchanged. -/
theorem c4_tags (template_id : String) (tags : Option (List (String × String))) :
    (∀ t, tags = some t → t ≠ [] →
        (start_experiment_params template_id tags).tags = t)
    ∧ ((tags = none ∨ tags = some []) →
        (start_experiment_params template_id tags).tags
          = [("StartedBy", "automation-script")]) := by
  constructor
  · intro t ht hne
    subst ht
    simp [start_experiment_params, truthyTags, hne]
  · intro h
    rcases h with h | h <;> subst h <;> simp [start_experiment_params, truthyTags]

/-- Claim C4 witness: a non-empty supplied mapping passes through and the
omitted mapping yields the default. -/
theorem c4_witness :
    (start_experiment_params "tpl-1" (some [("K", "V")])).tags = [("K", "V")]
    ∧ (start_experiment_params "tpl-1" none).tags
        = [("StartedBy", "automation-script")] :=
  ⟨(c4_tags "tpl-1" (some [("K", "V")])).1 [("K", "V")] rfl (by decide),
   (c4_tags "tpl-1" none).2 (Or.inl rfl)⟩

/-- Claim C8: for every input the built template carries exactly the fixed
tag set Environment test and ManagedBy fis-automation. -/
theorem c8_fixed_tags (regionName stsAccount description role_arn : String)
    (target_lambda_arns : List String) (action_id duration : String)
    (percentage : Int) (log_bucket : Option String) (log_pfx : String) :
    (build_template_params regionName stsAccount description role_arn
        target_lambda_arns action_id duration percentage log_bucket log_pfx).tags
      = [("Environment", "test"), ("ManagedBy", "fis-automation")] := rfl

/-- Claim C9: for every input the stop-conditions list is exactly the one
disabled sentinel with source none, so no alarm-based stop condition is
ever produced. -/
theorem c9_stop_conditions (regionName stsAccount description role_arn : String)
    (target_lambda_arns : List String) (action_id duration : String)
    (percentage : Int) (log_bucket : Option String) (log_pfx : String) :
    (build_template_params regionName stsAccount description role_arn
        target_lambda_arns action_id duration percentage log_bucket log_pfx).stopConditions
      = [⟨"none"⟩] := rfl

/-- A concrete argument vector: the argparse defaults with the two required
flags filled in and no-start left off. -/
def argsDefault : Args :=
  ⟨"role-arn", ["arnA"], "Lambda fault injection experiment",
   "aws:fis:inject-api-unavailable-error", "PT2M", 100, none, "us-east-1", false⟩

/-- The same argument vector with the no-start flag set. -/
def argsNoStart : Args :=
  ⟨"role-arn", ["arnA"], "Lambda fault injection experiment",
   "aws:fis:inject-api-unavailable-error", "PT2M", 100, none, "us-east-1", true⟩

/-- A run environment in which every service call succeeds. -/
def clientOk : FISClient :=
  ⟨"us-east-1", Except.ok ⟨"tpl-9"⟩, Except.ok ⟨"exp-7", "initiating"⟩,
   Except.ok ⟨"exp-7", "running"⟩⟩

/-- A run environment in which the template-creation call fails. -/
def clientCreateFail : FISClient :=
  ⟨"us-east-1", Except.error "AccessDenied", Except.ok ⟨"exp-7", "initiating"⟩,
   Except.ok ⟨"exp-7", "running"⟩⟩

/-- Claim C5: when the external create call fails, the failure line is
written to the error stream, the error propagates out of main so the
process exits with a non-zero status, and the starter is never invoked. -/
theorem c5_create_failure (args : Args) (client : FISClient)
    (stsAccount e : String) (h : client.createResult = Except.error e) :
    (main args client stsAccount).1 = Except.error e
    ∧ Event.stderr ("✗ テンプレート作成失敗: " ++ e) ∈ (main args client stsAccount).2
    ∧ processExit (main args client stsAccount) ≠ 0
    ∧ starterCalls (main args client stsAccount).2 = 0 := by
  cases hb : truthyStr args.log_bucket <;>
    simp [main, create_experiment_template, h, hb, processExit, starterCalls,
      starterCalls_append]

/-- Claim C5 witness: a concrete run whose create call fails with
AccessDenied shows the propagated error, the stderr line, the non-zero
exit, and the absent start call. -/
theorem c5_witness :
    (main argsDefault clientCreateFail "123456789012").1
        = Except.error "AccessDenied"
    ∧ Event.stderr ("✗ テンプレート作成失敗: " ++ "AccessDenied")
        ∈ (main argsDefault clientCreateFail "123456789012").2
    ∧ processExit (main argsDefault clientCreateFail "123456789012") ≠ 0
    ∧ starterCalls (main argsDefault clientCreateFail "123456789012").2 = 0 :=
  c5_create_failure argsDefault clientCreateFail "123456789012" "AccessDenied" rfl

/-- Claim C6: in every run with the no-start flag set the starter is never
invoked, and whenever the create call returns a template, the driver
prints the manual-start instruction carrying that template id. -/
theorem c6_no_start (args : Args) (client : FISClient) (stsAccount : String)
    (h : args.no_start = true) :
    starterCalls (main args client stsAccount).2 = 0
    ∧ ∀ tpl, client.createResult = Except.ok tpl →
        Event.stdout ("  python " ++ scriptFile ++ " start --template-id " ++ tpl.id)
          ∈ (main args client stsAccount).2 := by
  constructor
  · cases hc : client.createResult <;> cases hb : truthyStr args.log_bucket <;>
      simp [main, create_experiment_template, hc, hb, h, starterCalls,
        starterCalls_append]
  · intro tpl hc
    cases hb : truthyStr args.log_bucket <;>
      simp [main, create_experiment_template, hc, hb, h]

/-- Claim C6 witness: a concrete no-start run makes no start call and
prints the manual-start instruction for the created template tpl-9. -/
theorem c6_witness :
    starterCalls (main argsNoStart clientOk "123456789012").2 = 0
    ∧ Event.stdout ("  python " ++ scriptFile ++ " start --template-id "
          ++ (⟨"tpl-9"⟩ : CreatedTemplate).id)
        ∈ (main argsNoStart clientOk "123456789012").2 :=
  ⟨(c6_no_start argsNoStart clientOk "123456789012" rfl).1,
   (c6_no_start argsNoStart clientOk "123456789012" rfl).2 ⟨"tpl-9"⟩ rfl⟩

/-- Claim C7, counterexample: the empty string is a supplied log bucket,
yet the builder makes no identity-resolution call and embeds no log
configuration at all. -/
theorem c7_counterexample :
    (some "" : Option String).isSome = true
    ∧ stsCallCount (create_experiment_template clientOk "111122223333" "d" "r"
        ["arnC"] "act" "PT2M" 100 (some "") "fis-logs").2 = 0
    ∧ (build_template_params clientOk.regionName "111122223333" "d" "r"
        ["arnC"] "act" "PT2M" 100 (some "") "fis-logs").logConfiguration = none := by
  refine ⟨rfl, ?_, ?_⟩
  · simp [create_experiment_template, clientOk, truthyStr, stsCallCount,
      stsCallCount_append]
  · simp [build_template_params, truthyStr]

/-- Claim C7 (amended): whenever a non-empty log bucket is supplied, the
builder makes exactly one identity-resolution call and embeds the resolved
account into the log-group ARN arn:aws:logs:region:account:log-group
slash-aws-fis-star, alongside the bucket name, the prefix value, and log
schema version 1. -/
theorem c7_log_bucket (client : FISClient) (stsAccount : String)
    (description role_arn : String) (target_lambda_arns : List String)
    (action_id duration : String) (percentage : Int) (b log_pfx : String)
    (hb : b ≠ "") :
    stsCallCount (create_experiment_template client stsAccount description
        role_arn target_lambda_arns action_id duration percentage
        (some b) log_pfx).2 = 1
    ∧ (build_template_params client.regionName stsAccount description role_arn
        target_lambda_arns action_id duration percentage (some b) log_pfx).logConfiguration
      = some ⟨⟨"arn:aws:logs:" ++ client.regionName ++ ":" ++ stsAccount
              ++ ":log-group:/aws/fis/*"⟩, ⟨b, log_pfx⟩, 1⟩ := by
  have ht : truthyStr (some b) = true := by simp [truthyStr, hb]
  constructor
  · cases hc : client.createResult <;>
      simp [create_experiment_template, hc, ht, stsCallCount, stsCallCount_append]
  · simp [build_template_params, ht]

/-- Claim C7 witness: with bucket my-bucket the builder makes one identity
call and the log configuration carries the account inside the ARN, the
bucket, the prefix value, and schema version 1. -/
theorem c7_witness :
    stsCallCount (create_experiment_template clientOk "123456789012" "demo"
        "role" ["arnA"] "act" "PT2M" 100 (some "my-bucket") "fis-logs").2 = 1
    ∧ (build_template_params clientOk.regionName "123456789012" "demo" "role"
        ["arnA"] "act" "PT2M" 100 (some "my-bucket") "fis-logs").logConfiguration
      = some ⟨⟨"arn:aws:logs:" ++ clientOk.regionName ++ ":" ++ "123456789012"
              ++ ":log-group:/aws/fis/*"⟩, ⟨"my-bucket", "fis-logs"⟩, 1⟩ :=
  c7_log_bucket clientOk "123456789012" "demo" "role" ["arnA"] "act" "PT2M"
    100 "my-bucket" "fis-logs" (by decide)

/-- Claim C10: every start call a CLI run makes carries exactly the tag
mapping CreatedBy fis-script, so the starter default tag StartedBy
automation-script is never sent from the CLI. -/
theorem c10_start_tags (args : Args) (client : FISClient) (stsAccount : String)
    (p : StartParams) (h : Event.startCall p ∈ (main args client stsAccount).2) :
    p.tags = [("CreatedBy", "fis-script")]
    ∧ p.tags ≠ [("StartedBy", "automation-script")] := by
  cases hc : client.createResult with
  | error e =>
      exfalso
      cases hb : truthyStr args.log_bucket <;>
        simp [main, create_experiment_template, hc, hb] at h
  | ok tpl =>
      cases hns : args.no_start with
      | true =>
          exfalso
          cases hb : truthyStr args.log_bucket <;>
            simp [main, create_experiment_template, hc, hb, hns] at h
      | false =>
          have hp : p = start_experiment_params tpl.id
              (some [("CreatedBy", "fis-script")]) := by
            cases hs : client.startResult <;>
              cases hb : truthyStr args.log_bucket <;>
                simp [main, create_experiment_template, start_experiment,
                  hc, hb, hns, hs] at h <;> exact h
          subst hp
          exact ⟨by simp [start_experiment_params, truthyTags], by
            simp [start_experiment_params, truthyTags]⟩

/-- Claim C10 witness: in a concrete successful run the recorded start call
carries the CreatedBy fis-script mapping and not the starter default. -/
theorem c10_witness :
    (start_experiment_params "tpl-9" (some [("CreatedBy", "fis-script")])).tags
        = [("CreatedBy", "fis-script")]
    ∧ (start_experiment_params "tpl-9" (some [("CreatedBy", "fis-script")])).tags
        ≠ [("StartedBy", "automation-script")] :=
  c10_start_tags argsDefault clientOk "123456789012"
    (start_experiment_params "tpl-9" (some [("CreatedBy", "fis-script")]))
    (by decide)

end AwsFis
